import Mathlib

/-!
Shallow embedding of the pommel-horse-aesthetics taxonomy/validation core
(taxonomies/form_assessment.py, taxonomies/spatial_zones.py,
taxonomies/temporal_qualities.py, taxonomies/element_groups.py, server.py),
together with theorems settling the specification claims about it.

Caller-supplied Python dicts are embedded as structures of `Option` fields:
an absent dict key is `none`, and the code's `dict.get(k, d)` defaulting is
`Option.getD`. Python float scores are embedded as exact rationals (the
penalties are exact decimal constants). Python `None`-returning lookups are
embedded as `Option`.
-/

set_option maxHeartbeats 1600000

namespace PommelHorse

/-- A caller-supplied `element_execution` dict (server.py `assess_execution_form`
/ form_assessment.py `assess_form_quality`). Every key is optional. -/
structure ElementExecution where
  element_type : Option String := none
  body_extended : Option Bool := none
  legs_straight : Option Bool := none
  toes_pointed : Option Bool := none
  above_shoulder : Option Bool := none
  brushing : Option Bool := none
  hitting : Option Bool := none
  deriving Repr, DecidableEq

/-- Result dict of `assess_form_quality`. -/
structure FormQuality where
  quality_score : ℚ
  deductions : List String
  form_assessment : String
  deriving Repr, DecidableEq

/-- form_assessment.py `assess_form_quality`: sequential deduction checks,
each appending a name and subtracting a fixed penalty from a 10.0 start,
final score clamped below by 0. -/
def assess_form_quality (e : ElementExecution) : FormQuality :=
  let acc0 : List String × ℚ := ([], 10)
  let acc1 := if !(e.body_extended.getD true) then
    (acc0.1 ++ ["lack_of_extension"], acc0.2 - 3/10) else acc0
  let acc2 := if !(e.legs_straight.getD true) then
    (acc1.1 ++ ["bent_knees"], acc1.2 - 3/10) else acc1
  let acc3 := if !(e.toes_pointed.getD true) then
    (acc2.1 ++ ["flexed_feet"], acc2.2 - 1/10) else acc2
  let acc4 := if e.element_type == some "scissor" && !(e.above_shoulder.getD true) then
    (acc3.1 ++ ["lack_of_amplitude"], acc3.2 - 3/10) else acc3
  let acc5 := if e.brushing.getD false then
    (acc4.1 ++ ["brushing"], acc4.2 - 1/10) else acc4
  let acc6 := if e.hitting.getD false then
    (acc5.1 ++ ["hitting"], acc5.2 - 3/10) else acc5
  { quality_score := max 0 acc6.2
    deductions := acc6.1
    form_assessment := if acc6.1.isEmpty then "clean" else "errors_present" }

/-- The fixed penalty attached to each deduction name in
`assess_form_quality` (0 for names it never emits). -/
def deduction_penalty : String → ℚ
  | "lack_of_extension" => 3/10
  | "bent_knees" => 3/10
  | "flexed_feet" => 1/10
  | "lack_of_amplitude" => 3/10
  | "brushing" => 1/10
  | "hitting" => 3/10
  | _ => 0

/-- Closed form of `assess_form_quality`: the deduction list is the
concatenation of the six independent condition checks in source order, the
score is 10 minus the penalties of the fired deductions (never clamped in
practice since the total penalty is at most 1.4), and the label is
`"clean"` exactly on the empty deduction list. -/
theorem assess_form_quality_eq (e : ElementExecution) :
    assess_form_quality e =
      { quality_score := 10 -
          (((if !(e.body_extended.getD true) then ["lack_of_extension"] else []) ++
            (if !(e.legs_straight.getD true) then ["bent_knees"] else []) ++
            (if !(e.toes_pointed.getD true) then ["flexed_feet"] else []) ++
            (if e.element_type == some "scissor" && !(e.above_shoulder.getD true) then
              ["lack_of_amplitude"] else []) ++
            (if e.brushing.getD false then ["brushing"] else []) ++
            (if e.hitting.getD false then ["hitting"] else [])).map deduction_penalty).sum
        deductions :=
          (if !(e.body_extended.getD true) then ["lack_of_extension"] else []) ++
          (if !(e.legs_straight.getD true) then ["bent_knees"] else []) ++
          (if !(e.toes_pointed.getD true) then ["flexed_feet"] else []) ++
          (if e.element_type == some "scissor" && !(e.above_shoulder.getD true) then
            ["lack_of_amplitude"] else []) ++
          (if e.brushing.getD false then ["brushing"] else []) ++
          (if e.hitting.getD false then ["hitting"] else [])
        form_assessment :=
          if ((if !(e.body_extended.getD true) then ["lack_of_extension"] else []) ++
              (if !(e.legs_straight.getD true) then ["bent_knees"] else []) ++
              (if !(e.toes_pointed.getD true) then ["flexed_feet"] else []) ++
              (if e.element_type == some "scissor" && !(e.above_shoulder.getD true) then
                ["lack_of_amplitude"] else []) ++
              (if e.brushing.getD false then ["brushing"] else []) ++
              (if e.hitting.getD false then ["hitting"] else [])).isEmpty then
            "clean" else "errors_present" } := by
  cases hb : e.body_extended.getD true <;>
    cases hl : e.legs_straight.getD true <;>
      cases ht : e.toes_pointed.getD true <;>
        cases hs : e.element_type == some "scissor" && !(e.above_shoulder.getD true) <;>
          cases hbr : e.brushing.getD false <;>
            cases hh : e.hitting.getD false <;>
              simp [assess_form_quality, hb, hl, ht, hs, hbr, hh, deduction_penalty] <;>
                norm_num

/-- The label field of `assess_form_quality` is computed from its own
deduction list by an emptiness test. -/
theorem form_assessment_def (e : ElementExecution) :
    (assess_form_quality e).form_assessment =
      if (assess_form_quality e).deductions.isEmpty then "clean"
      else "errors_present" := by
  unfold assess_form_quality
  rfl

/-- The `form_assessment` label of `assess_form_quality` is `"clean"` exactly
when no deduction fired. -/
theorem form_assessment_clean_iff (e : ElementExecution) :
    (assess_form_quality e).form_assessment = "clean" ↔
      (assess_form_quality e).deductions = [] := by
  rw [form_assessment_def]
  rcases h : (assess_form_quality e).deductions with _ | ⟨a, l⟩
  · simp
  · simp

/-- The spec's C1 example record: extension lacking and apparatus hit, legs
and toes fine, all other keys absent. -/
def example_execution_record : ElementExecution :=
  { body_extended := some false, legs_straight := some true,
    toes_pointed := some true, hitting := some true }

/-- C1: `assess_form_quality` starts from 10.0, appends each fired deduction
name in source order and subtracts its fixed penalty; absent flags default so
that the empty record yields score 10, no deductions and label `"clean"`; the
label is `"clean"` iff zero deductions fired; and the spec's example record
yields deductions `["lack_of_extension", "hitting"]` with score 9.4. -/
theorem assess_form_quality_rules (e : ElementExecution) :
    ((assess_form_quality e).deductions =
      (if !(e.body_extended.getD true) then ["lack_of_extension"] else []) ++
      (if !(e.legs_straight.getD true) then ["bent_knees"] else []) ++
      (if !(e.toes_pointed.getD true) then ["flexed_feet"] else []) ++
      (if e.element_type == some "scissor" && !(e.above_shoulder.getD true) then
        ["lack_of_amplitude"] else []) ++
      (if e.brushing.getD false then ["brushing"] else []) ++
      (if e.hitting.getD false then ["hitting"] else []))
    ∧ (assess_form_quality e).quality_score =
        10 - ((assess_form_quality e).deductions.map deduction_penalty).sum
    ∧ ((assess_form_quality e).form_assessment = "clean" ↔
        (assess_form_quality e).deductions = [])
    ∧ assess_form_quality {} =
        { quality_score := 10, deductions := [], form_assessment := "clean" }
    ∧ assess_form_quality example_execution_record =
        { quality_score := 47/5, deductions := ["lack_of_extension", "hitting"], form_assessment := "errors_present" } := by
  refine ⟨?_, ?_, form_assessment_clean_iff e, ?_, ?_⟩
  · rw [assess_form_quality_eq e]
  · rw [assess_form_quality_eq e]
  · rw [assess_form_quality_eq]
    norm_num [deduction_penalty]
  · rw [assess_form_quality_eq]
    norm_num [example_execution_record, deduction_penalty]

/-- The spec's "all conditions violated" execution record: a scissor with
every form flag false and both contact flags true. -/
def all_violations_record : ElementExecution :=
  { element_type := some "scissor", body_extended := some false,
    legs_straight := some false, toes_pointed := some false,
    above_shoulder := some false, brushing := some true, hitting := some true }

/-- C5 counterexample: the all-violations record does not score 8.7 — six
deductions fire, totalling 1.4, so the score is 8.6. -/
theorem all_violations_score_not_87 :
    (assess_form_quality all_violations_record).quality_score ≠ 87/10 := by
  rw [assess_form_quality_eq]
  norm_num [all_violations_record, deduction_penalty]

/-- C5 amended: the all-violations record scores 10 - 1.4 = 8.6, and for
every input record the returned quality score is never negative. -/
theorem all_violations_score_and_floor :
    (assess_form_quality all_violations_record).quality_score = 43/5
    ∧ ∀ e : ElementExecution, 0 ≤ (assess_form_quality e).quality_score := by
  refine ⟨?_, fun e => ?_⟩
  · rw [assess_form_quality_eq]
    norm_num [all_violations_record, deduction_penalty]
  · unfold assess_form_quality
    exact le_max_left 0 _

/-- A caller-supplied routine element dict (server.py `map_routine_structure`,
spatial_zones.py `analyze_spatial_coverage`, temporal_qualities.py
`analyze_tempo_strategy`). Every key is optional. -/
structure RoutineElement where
  element_type : Option String := none
  zone : Option String := none
  tempo : Option String := none
  difficulty_value : Option String := none
  pause : Option Bool := none
  deriving Repr, DecidableEq

/-- Result dict of `analyze_spatial_coverage`. The Python set of zones is
embedded as a deduplicated list. -/
structure SpatialCoverage where
  zones_covered : List String
  all_sections_used : Bool
  coverage_complete : Bool
  deriving Repr, DecidableEq

/-- spatial_zones.py `analyze_spatial_coverage`: collect the set of `zone`
values of elements that carry one, report whether at least three distinct
values appear and whether the three canonical section names all appear. -/
def analyze_spatial_coverage (elements : List RoutineElement) : SpatialCoverage :=
  let zones_used := (elements.filterMap (fun el => el.zone)).dedup
  { zones_covered := zones_used
    all_sections_used := decide (3 ≤ zones_used.length)
    coverage_complete :=
      decide ("end_left" ∈ zones_used ∧ "saddle" ∈ zones_used ∧
        "end_right" ∈ zones_used) }

/-- A routine element carrying only a zone value. -/
def zone_elem (z : String) : RoutineElement := { zone := some z }

/-- Three distinct zone strings none of which is a canonical section name. -/
def noncanonical_routine : List RoutineElement :=
  [zone_elem "left_end", zone_elem "middle", zone_elem "right_end"]

/-- All three canonical sections, one of them twice. -/
def duplicated_zone_routine : List RoutineElement :=
  [zone_elem "end_left", zone_elem "saddle", zone_elem "end_right",
    zone_elem "end_left"]

/-- C2: `coverage_complete` holds iff the three canonical zone names all occur
among the elements' zones, `all_sections_used` holds iff at least three
distinct zone values occur; three distinct non-canonical zones give
`all_sections_used` without `coverage_complete`, and a duplicated canonical
zone still gives `coverage_complete`. -/
theorem analyze_spatial_coverage_spec (elements : List RoutineElement) :
    ((analyze_spatial_coverage elements).coverage_complete = true ↔
      ("end_left" ∈ elements.filterMap (fun el => el.zone) ∧
        "saddle" ∈ elements.filterMap (fun el => el.zone) ∧
        "end_right" ∈ elements.filterMap (fun el => el.zone)))
    ∧ ((analyze_spatial_coverage elements).all_sections_used = true ↔
        3 ≤ (elements.filterMap (fun el => el.zone)).toFinset.card)
    ∧ (analyze_spatial_coverage noncanonical_routine).all_sections_used = true
    ∧ (analyze_spatial_coverage noncanonical_routine).coverage_complete = false
    ∧ (analyze_spatial_coverage duplicated_zone_routine).coverage_complete
        = true := by
  refine ⟨?_, ?_, by decide, by decide, by decide⟩
  · simp [analyze_spatial_coverage, List.mem_dedup]
  · simp [analyze_spatial_coverage, List.card_toFinset]

/-- Result dict of `analyze_tempo_strategy`. -/
structure TempoStrategy where
  continuity_maintained : Bool
  rhythm_pattern : String
  fatigue_risk_zones : List String
  temporal_aesthetic : List String
  deriving Repr, DecidableEq

/-- temporal_qualities.py `analyze_tempo_strategy`. The source initializes
`rhythm_pattern` to `"unknown"` and then overwrites it on both branches of
the tempo-consistency test, so the conditional below is exhaustive; the
`temporal_aesthetic` field is initialized empty and never updated. -/
def analyze_tempo_strategy (routine_structure : List RoutineElement) :
    TempoStrategy :=
  let continuity := !(routine_structure.any (fun el => el.pause.getD false))
  let tempos := routine_structure.map (fun el => el.tempo.getD "moderate")
  let rhythm := if tempos.dedup.length = 1 then "metronomic" else "syncopated"
  let fatigue := if 8 < routine_structure.length then ["routine_end"] else []
  { continuity_maintained := continuity
    rhythm_pattern := rhythm
    fatigue_risk_zones := fatigue
    temporal_aesthetic := [] }

/-- C3 counterexample: on the empty element list the returned rhythm pattern
is `"syncopated"` although the set of distinct tempo labels has zero members,
not two or more. -/
theorem rhythm_pattern_empty_counterexample :
    ¬ ((analyze_tempo_strategy []).rhythm_pattern = "syncopated" ↔
        2 ≤ (([] : List RoutineElement).map
          (fun el => el.tempo.getD "moderate")).toFinset.card) := by
  decide

/-- C3 amended: the rhythm pattern is `"metronomic"` exactly when the set of
distinct tempo labels (absent tempos defaulting to `"moderate"`) has exactly
one member, and `"syncopated"` exactly when it does not (zero members — the
empty routine — or two or more); the declared `"unknown"` default is never
returned. -/
theorem rhythm_pattern_classification (elements : List RoutineElement) :
    ((analyze_tempo_strategy elements).rhythm_pattern = "metronomic" ↔
      (elements.map (fun el => el.tempo.getD "moderate")).toFinset.card = 1)
    ∧ ((analyze_tempo_strategy elements).rhythm_pattern = "syncopated" ↔
        (elements.map (fun el => el.tempo.getD "moderate")).toFinset.card ≠ 1)
    ∧ ((analyze_tempo_strategy elements).rhythm_pattern = "metronomic" ∨
        (analyze_tempo_strategy elements).rhythm_pattern = "syncopated") := by
  by_cases h :
      (elements.map (fun el => el.tempo.getD "moderate")).dedup.length = 1 <;>
    simp [analyze_tempo_strategy, h, List.card_toFinset]

/-- C6: continuity fails exactly when some element carries a truthy pause
flag, and the fatigue-risk list is `["routine_end"]` exactly when the element
count exceeds the fixed threshold 8, otherwise empty. -/
theorem tempo_continuity_and_fatigue (elements : List RoutineElement) :
    ((analyze_tempo_strategy elements).continuity_maintained = false ↔
      ∃ el ∈ elements, el.pause.getD false = true)
    ∧ ("routine_end" ∈ (analyze_tempo_strategy elements).fatigue_risk_zones ↔
        8 < elements.length)
    ∧ ((analyze_tempo_strategy elements).fatigue_risk_zones =
        if 8 < elements.length then ["routine_end"] else []) := by
  refine ⟨?_, ?_, rfl⟩
  · simp [analyze_tempo_strategy]
  · by_cases h : 8 < elements.length <;> simp [analyze_tempo_strategy, h]

/-- C10: every input list, the empty one included, is classified as either
`"metronomic"` or `"syncopated"`; the initial `"unknown"` value is never
returned, and the empty routine is classified `"syncopated"`. -/
theorem rhythm_pattern_never_unknown (elements : List RoutineElement) :
    ((analyze_tempo_strategy elements).rhythm_pattern = "metronomic" ∨
      (analyze_tempo_strategy elements).rhythm_pattern = "syncopated")
    ∧ (analyze_tempo_strategy elements).rhythm_pattern ≠ "unknown"
    ∧ (analyze_tempo_strategy []).rhythm_pattern = "syncopated" := by
  by_cases h :
      (elements.map (fun el => el.tempo.getD "moderate")).dedup.length = 1 <;>
    simp [analyze_tempo_strategy, h]

/-- server.py `map_routine_structure`, element-distribution loop: the element
group a given `element_type` keyword contributes to, if any. -/
def element_group_of (elem_type : String) : Option String :=
  if elem_type ∈ ["circle", "flair", "russian", "spindle"] then
    some "circles_flairs"
  else if elem_type ∈ ["scissor", "single_leg"] then
    some "scissors_single_leg"
  else if elem_type ∈ ["magyar", "sivado", "travel"] then
    some "travels"
  else if elem_type ∈ ["dismount"] then
    some "dismounts"
  else
    none

/-- The set `analysis["element_groups_present"]` built by
`map_routine_structure` (embedded as a deduplicated list): groups contributed
by the elements' types, absent types defaulting to `"unknown"`. -/
def element_groups_present (seq : List RoutineElement) : List String :=
  (seq.filterMap (fun el => element_group_of (el.element_type.getD "unknown"))).dedup

/-- One step of the difficulty histogram:
`profile[diff] = profile.get(diff, 0) + 1`, insertion-ordered as a Python
dict. -/
def bump_count (m : List (String × Nat)) (d : String) : List (String × Nat) :=
  if m.any (fun p => p.1 == d) then
    m.map (fun p => if p.1 == d then (p.1, p.2 + 1) else p)
  else
    m ++ [(d, 1)]

/-- The `difficulty_profile` histogram of `map_routine_structure`: counts of
each difficulty letter, absent letters defaulting to `"A"`. -/
def difficulty_profile (seq : List RoutineElement) : List (String × Nat) :=
  seq.foldl (fun m el => bump_count m (el.difficulty_value.getD "A")) []

/-- Result dict of `map_routine_structure`. The `spatial_coverage` /
`temporal_strategy` keys are present exactly when the corresponding flag was
set, hence `Option` fields here. -/
structure RoutineAnalysis where
  element_count : Nat
  element_groups_present : List String
  difficulty_profile : List (String × Nat)
  structure_valid : Bool
  notes : List String
  spatial_coverage : Option SpatialCoverage
  temporal_strategy : Option TempoStrategy
  synthesis_ready : Bool
  deriving Repr, DecidableEq

/-- server.py `map_routine_structure`: classify elements into groups, tally
difficulties, then run the requested validity checks in source order, each
failure forcing `structure_valid` to false and appending its note;
`synthesis_ready` copies the final `structure_valid`. -/
def map_routine_structure (element_sequence : List RoutineElement)
    (include_spatial : Bool) (include_temporal : Bool) : RoutineAnalysis :=
  let groups := element_groups_present element_sequence
  let step1 : Bool × List String :=
    if groups.length < 4 then
      (false, ["Insufficient element group variety - need 4 groups"])
    else
      (true, [])
  let spatial :=
    if include_spatial then some (analyze_spatial_coverage element_sequence)
    else none
  let step2 : Bool × List String :=
    match spatial with
    | some sc =>
      if !sc.coverage_complete then
        (false, step1.2 ++ ["Incomplete zone coverage - must use all 3 sections"])
      else step1
    | none => step1
  let temporal :=
    if include_temporal then some (analyze_tempo_strategy element_sequence)
    else none
  let step3 : Bool × List String :=
    match temporal with
    | some ts =>
      if !ts.continuity_maintained then
        (false, step2.2 ++ ["Routine has pauses - continuity required"])
      else step2
    | none => step2
  { element_count := element_sequence.length
    element_groups_present := groups
    difficulty_profile := difficulty_profile element_sequence
    structure_valid := step3.1
    notes := step3.2
    spatial_coverage := spatial
    temporal_strategy := temporal
    synthesis_ready := step3.1 }

/-- C4: `structure_valid` is the conjunction of the at-least-4-groups check
and, per flag, the spatial and temporal verdicts; each failing requested
check contributes its note; too few groups force invalidity regardless of the
flags; and `synthesis_ready` always equals `structure_valid`. -/
theorem map_routine_structure_validity (seq : List RoutineElement)
    (include_spatial include_temporal : Bool) :
    ((map_routine_structure seq include_spatial include_temporal).structure_valid =
      ((!decide ((element_groups_present seq).length < 4)) &&
        (!include_spatial || (analyze_spatial_coverage seq).coverage_complete) &&
        (!include_temporal || (analyze_tempo_strategy seq).continuity_maintained)))
    ∧ ((map_routine_structure seq include_spatial include_temporal).synthesis_ready =
        (map_routine_structure seq include_spatial include_temporal).structure_valid)
    ∧ ((element_groups_present seq).length < 4 →
        (map_routine_structure seq include_spatial include_temporal).structure_valid
            = false ∧
          "Insufficient element group variety - need 4 groups" ∈
            (map_routine_structure seq include_spatial include_temporal).notes)
    ∧ (include_spatial = true →
        (analyze_spatial_coverage seq).coverage_complete = false →
          (map_routine_structure seq include_spatial include_temporal).structure_valid
              = false ∧
            "Incomplete zone coverage - must use all 3 sections" ∈
              (map_routine_structure seq include_spatial include_temporal).notes)
    ∧ (include_temporal = true →
        (analyze_tempo_strategy seq).continuity_maintained = false →
          (map_routine_structure seq include_spatial include_temporal).structure_valid
              = false ∧
            "Routine has pauses - continuity required" ∈
              (map_routine_structure seq include_spatial include_temporal).notes) := by
  cases hsf : include_spatial <;> cases htf : include_temporal <;>
    by_cases h1 : (element_groups_present seq).length < 4 <;>
      cases hc : (analyze_spatial_coverage seq).coverage_complete <;>
        cases hm : (analyze_tempo_strategy seq).continuity_maintained <;>
          simp [map_routine_structure, h1, hc, hm]

/-- A one-element routine: a circle with a pause and no zone. -/
def pause_only_routine : List RoutineElement :=
  [{ element_type := some "circle", pause := some true }]

/-- Witness for the C4 theorem at a concrete routine failing all three
checks with both flags on. -/
theorem map_routine_structure_validity_witness :
    (map_routine_structure pause_only_routine true true).structure_valid = false
    ∧ "Insufficient element group variety - need 4 groups" ∈
        (map_routine_structure pause_only_routine true true).notes
    ∧ "Incomplete zone coverage - must use all 3 sections" ∈
        (map_routine_structure pause_only_routine true true).notes
    ∧ "Routine has pauses - continuity required" ∈
        (map_routine_structure pause_only_routine true true).notes :=
  ⟨((map_routine_structure_validity pause_only_routine true true).2.2.1
      (by decide)).1,
    ((map_routine_structure_validity pause_only_routine true true).2.2.1
      (by decide)).2,
    ((map_routine_structure_validity pause_only_routine true true).2.2.2.1
      rfl (by decide)).2,
    ((map_routine_structure_validity pause_only_routine true true).2.2.2.2
      rfl (by decide)).2⟩

/-- Any group name emitted by the keyword classification is one of the four
reachable groups. -/
theorem element_group_of_mem_four (t g : String)
    (h : element_group_of t = some g) :
    g ∈ ["circles_flairs", "scissors_single_leg", "travels", "dismounts"] := by
  unfold element_group_of at h
  split_ifs at h <;> simp_all

/-- The groups-present set only ever holds the four reachable group names. -/
theorem element_groups_present_subset (seq : List RoutineElement) :
    element_groups_present seq ⊆
      ["circles_flairs", "scissors_single_leg", "travels", "dismounts"] := by
  intro g hg
  rw [element_groups_present, List.mem_dedup, List.mem_filterMap] at hg
  obtain ⟨el, _, h⟩ := hg
  exact element_group_of_mem_four _ _ h

/-- A valid structure passed the at-least-4-distinct-groups check. -/
theorem structure_valid_needs_groups (seq : List RoutineElement)
    (sflag tflag : Bool)
    (h : (map_routine_structure seq sflag tflag).structure_valid = true) :
    4 ≤ (element_groups_present seq).length := by
  by_contra hlt
  push_neg at hlt
  cases sflag <;> cases tflag <;>
    cases hc : (analyze_spatial_coverage seq).coverage_complete <;>
      cases hm : (analyze_tempo_strategy seq).continuity_maintained <;>
        simp [map_routine_structure, hlt, hc, hm] at h

/-- C9: the spindles/handstands group is unreachable: `"spindle"` routes to
`circles_flairs`, no element-type keyword yields `spindles_handstands`, the
groups-present set lies inside the other four group names (so at most 4 of
the taxonomy's 5 groups can ever be present), and a valid structure must
contain all four of them. -/
theorem spindles_handstands_unreachable (seq : List RoutineElement)
    (include_spatial include_temporal : Bool) :
    "spindles_handstands" ∉ element_groups_present seq
    ∧ element_group_of "spindle" = some "circles_flairs"
    ∧ (∀ t : String, element_group_of t ≠ some "spindles_handstands")
    ∧ element_groups_present seq ⊆
        ["circles_flairs", "scissors_single_leg", "travels", "dismounts"]
    ∧ (element_groups_present seq).length ≤ 4
    ∧ ((map_routine_structure seq include_spatial
          include_temporal).structure_valid = true →
        "circles_flairs" ∈ element_groups_present seq ∧
          "scissors_single_leg" ∈ element_groups_present seq ∧
          "travels" ∈ element_groups_present seq ∧
          "dismounts" ∈ element_groups_present seq) := by
  have hsub := element_groups_present_subset seq
  have hnodup : (element_groups_present seq).Nodup := List.nodup_dedup _
  have hsubF : (element_groups_present seq).toFinset ⊆
      (["circles_flairs", "scissors_single_leg", "travels",
        "dismounts"] : List String).toFinset := by
    intro x hx
    rw [List.mem_toFinset] at hx ⊢
    exact hsub hx
  have hlen : (element_groups_present seq).length ≤ 4 := by
    have hcard := Finset.card_le_card hsubF
    rw [List.toFinset_card_of_nodup hnodup] at hcard
    exact le_trans hcard (by decide)
  refine ⟨?_, by decide, ?_, hsub, hlen, ?_⟩
  · intro hmem
    exact absurd (hsub hmem) (by decide)
  · intro t h
    exact absurd (element_group_of_mem_four t _ h) (by decide)
  · intro hvalid
    have h4 := structure_valid_needs_groups seq include_spatial
      include_temporal hvalid
    have hcards : (["circles_flairs", "scissors_single_leg", "travels",
        "dismounts"] : List String).toFinset.card ≤
        (element_groups_present seq).toFinset.card := by
      rw [List.toFinset_card_of_nodup hnodup]
      exact le_trans (by decide) h4
    have heq := Finset.eq_of_subset_of_card_le hsubF hcards
    refine ⟨?_, ?_, ?_, ?_⟩ <;>
      · rw [← List.mem_toFinset, heq]
        decide

/-- A four-group routine covering all three zones, with uniform default
tempo and no pauses. -/
def full_routine : List RoutineElement :=
  [{ element_type := some "circle", zone := some "end_left" },
    { element_type := some "scissor", zone := some "saddle" },
    { element_type := some "travel", zone := some "end_right" },
    { element_type := some "dismount", zone := some "saddle" }]

/-- Witness for the C9 theorem at a concrete valid routine. -/
theorem spindles_handstands_unreachable_witness :
    "circles_flairs" ∈ element_groups_present full_routine
    ∧ "scissors_single_leg" ∈ element_groups_present full_routine
    ∧ "travels" ∈ element_groups_present full_routine
    ∧ "dismounts" ∈ element_groups_present full_routine :=
  (spindles_handstands_unreachable full_routine true true).2.2.2.2.2
    (by decide)

/-- One entry of element_groups.py `ELEMENT_GROUPS`. The accessors only
inspect the `id` field and the table key; the identifying display fields are
carried verbatim and the nested descriptive prose sub-tables, which no
verified function consults, are elided. -/
structure ElementGroup where
  id : String
  name : String
  description : String
  deriving Repr, DecidableEq

/-- `ELEMENT_GROUPS["scissors_single_leg"]`. -/
def scissors_single_leg_group : ElementGroup :=
  { id := "EG_I", name := "Scissors & Single-Leg Work",
    description := "Pendulum swings with separated legs, single-leg cuts and transfers" }

/-- `ELEMENT_GROUPS["circles_flairs"]`. -/
def circles_flairs_group : ElementGroup :=
  { id := "EG_II", name := "Circles & Flairs",
    description := "Continuous rotational patterns - foundation of pommel horse work" }

/-- `ELEMENT_GROUPS["travels"]`. -/
def travels_group : ElementGroup :=
  { id := "EG_III", name := "Travels",
    description := "Circles that translate across the horse length" }

/-- `ELEMENT_GROUPS["spindles_handstands"]`. -/
def spindles_handstands_group : ElementGroup :=
  { id := "EG_IV", name := "Spindles & Handstands",
    description := "Rotational variations and vertical positions" }

/-- `ELEMENT_GROUPS["dismounts"]`. -/
def dismounts_group : ElementGroup :=
  { id := "EG_V", name := "Dismounts",
    description := "Exit elements - now their own element group (2025-28 cycle)" }

/-- element_groups.py `ELEMENT_GROUPS`: the five fixed groups keyed by
semantic name, in source order (a Python dict preserves insertion order, so
an association list). -/
def ELEMENT_GROUPS : List (String × ElementGroup) :=
  [("scissors_single_leg", scissors_single_leg_group),
    ("circles_flairs", circles_flairs_group),
    ("travels", travels_group),
    ("spindles_handstands", spindles_handstands_group),
    ("dismounts", dismounts_group)]

/-- The loop of element_groups.py `get_element_group`: scan the table and
return the first group whose `id` or key equals the argument. -/
def lookup_group : List (String × ElementGroup) → String → Option ElementGroup
  | [], _ => none
  | (k, g) :: rest, s =>
    if g.id == s || k == s then some g else lookup_group rest s

/-- element_groups.py `get_element_group`; the Python `None` fallthrough is
`none`. -/
def get_element_group (group_id : String) : Option ElementGroup :=
  lookup_group ELEMENT_GROUPS group_id

/-- The ten strings that name a group: the five short ids and the five
semantic keys. -/
def group_identifiers : List String :=
  ELEMENT_GROUPS.map (fun p => p.2.id) ++ ELEMENT_GROUPS.map (fun p => p.1)

/-- The table scan misses exactly when no entry matches by id or key. -/
theorem lookup_group_none_iff (l : List (String × ElementGroup)) (s : String) :
    lookup_group l s = none ↔ ∀ p ∈ l, p.2.id ≠ s ∧ p.1 ≠ s := by
  induction l with
  | nil => simp [lookup_group]
  | cons p rest ih =>
    obtain ⟨k, g⟩ := p
    rw [lookup_group]
    by_cases hc : (g.id == s || k == s) = true
    · rw [if_pos hc]
      simp only [Bool.or_eq_true, beq_iff_eq] at hc
      simp only [List.forall_mem_cons]
      constructor
      · intro h
        simp at h
      · rintro ⟨⟨h1, h2⟩, _⟩
        rcases hc with hc | hc
        · exact absurd hc h1
        · exact absurd hc h2
    · rw [if_neg hc]
      simp only [Bool.or_eq_true, beq_iff_eq, not_or] at hc
      simp only [List.forall_mem_cons, ih]
      constructor
      · intro h
        exact ⟨⟨hc.1, hc.2⟩, h⟩
      · rintro ⟨_, h⟩
        exact h

/-- A hit of the table scan is an entry of the table matching by id or
key. -/
theorem lookup_group_some (l : List (String × ElementGroup)) (s : String)
    (g : ElementGroup) (h : lookup_group l s = some g) :
    ∃ k, (k, g) ∈ l ∧ (g.id = s ∨ k = s) := by
  induction l with
  | nil => simp [lookup_group] at h
  | cons p rest ih =>
    obtain ⟨k, g'⟩ := p
    rw [lookup_group] at h
    by_cases hc : (g'.id == s || k == s) = true
    · rw [if_pos hc] at h
      obtain rfl : g' = g := by injection h
      refine ⟨k, List.mem_cons_self _ _, ?_⟩
      simpa [Bool.or_eq_true, beq_iff_eq] using hc
    · rw [if_neg hc] at h
      obtain ⟨k', hk', hor⟩ := ih h
      exact ⟨k', List.mem_cons_of_mem _ hk', hor⟩

/-- C8: `get_element_group` misses exactly on strings outside the ten valid
identifiers, and every hit is a table entry matched case-sensitively by its
id or semantic key; the embedding is a total pure function, so not-found is
a first-class value and there is no exception path and no side effect. -/
theorem get_element_group_spec (s : String) :
    (get_element_group s = none ↔ s ∉ group_identifiers)
    ∧ ∀ g, get_element_group s = some g →
        ∃ k, (k, g) ∈ ELEMENT_GROUPS ∧ (g.id = s ∨ k = s) := by
  constructor
  · rw [get_element_group, lookup_group_none_iff]
    constructor
    · intro h hmem
      rw [group_identifiers, List.mem_append] at hmem
      rcases hmem with hmem | hmem
      · obtain ⟨p, hp, hid⟩ := List.mem_map.mp hmem
        exact (h p hp).1 hid
      · obtain ⟨p, hp, hk⟩ := List.mem_map.mp hmem
        exact (h p hp).2 hk
    · intro h p hp
      refine ⟨fun hid => h ?_, fun hk => h ?_⟩
      · rw [group_identifiers, List.mem_append]
        exact Or.inl (List.mem_map.mpr ⟨p, hp, hid⟩)
      · rw [group_identifiers, List.mem_append]
        exact Or.inr (List.mem_map.mpr ⟨p, hp, hk⟩)
  · intro g hg
    exact lookup_group_some ELEMENT_GROUPS s g hg

/-- Witness for the C8 theorem: a miss on an unknown identifier and a hit by
short id. -/
theorem get_element_group_spec_witness :
    get_element_group "unknown_group" = none
    ∧ ∃ k, (k, travels_group) ∈ ELEMENT_GROUPS ∧
        (travels_group.id = "EG_III" ∨ k = "EG_III") :=
  ⟨(get_element_group_spec "unknown_group").1.mpr (by decide),
    (get_element_group_spec "EG_III").2 travels_group (by decide)⟩

/-- One apparatus section of spatial_zones.py
`SPATIAL_ZONES["apparatus_sections"]` (identifying fields carried verbatim;
prose-only attributes, which no verified function consults, are elided). -/
structure ZoneSection where
  name : String
  description : String
  deriving Repr, DecidableEq

/-- One entry of `SPATIAL_ZONES["support_configurations"]`. -/
structure SupportConfiguration where
  position : String
  stability : String
  deriving Repr, DecidableEq

/-- One entry of `SPATIAL_ZONES["trajectory_patterns"]`. -/
structure TrajectoryPattern where
  description : String
  path : String
  deriving Repr, DecidableEq

/-- spatial_zones.py `SPATIAL_ZONES`: the three sub-tables the verified
server operation consults (the prose-only `spatial_requirements` and
`dimensional_analysis` sub-tables are elided). -/
structure SpatialZonesTable where
  apparatus_sections : List (String × ZoneSection)
  support_configurations : List (String × SupportConfiguration)
  trajectory_patterns : List (String × TrajectoryPattern)
  deriving Repr, DecidableEq

/-- spatial_zones.py `SPATIAL_ZONES`, keys in source order. -/
def SPATIAL_ZONES : SpatialZonesTable :=
  { apparatus_sections :=
      [("end_left", { name := "Left End", description := "Leftmost section of horse" }),
        ("saddle", { name := "Saddle (Center)", description := "Central section between pommels" }),
        ("end_right", { name := "Right End", description := "Rightmost section of horse" })]
    support_configurations :=
      [("between_pommels", { position := "Hands on both pommels", stability := "Maximum - widest base" }),
        ("single_pommel", { position := "Both hands on one pommel", stability := "Advanced - requires precise balance" }),
        ("leather_only", { position := "Hands on apparatus surface (no pommels)", stability := "Most challenging" }),
        ("one_pommel_one_leather", { position := "Mixed support - one hand on pommel, one on leather", stability := "Moderate difficulty" })]
    trajectory_patterns :=
      [("stationary_circle", { description := "Rotation without translation", path := "Fixed circular plane" }),
        ("longitudinal_travel", { description := "Movement along horse length", path := "Linear translation with rotation" }),
        ("transverse_circle", { description := "Rotation across horse width", path := "Perpendicular to length axis" }),
        ("diagonal_path", { description := "Angled trajectory across apparatus", path := "Oblique to length axis" })] }

/-- spatial_zones.py `APPARATUS_SPECS` (identifying field only: the server
operation returns this table verbatim and never inspects it). -/
structure ApparatusSpecs where
  dimensions_length : String
  deriving Repr, DecidableEq

/-- spatial_zones.py `APPARATUS_SPECS`. -/
def APPARATUS_SPECS : ApparatusSpecs :=
  { dimensions_length := "160 cm (63 inches)" }

/-- spatial_zones.py `get_support_config`; the Python empty-dict default,
falsy in the server's truthiness test, is embedded as `none`. -/
def get_support_config (config_name : String) : Option SupportConfiguration :=
  (SPATIAL_ZONES.support_configurations.find? (fun p => p.1 == config_name)).map
    (fun p => p.2)

/-- spatial_zones.py `get_trajectory_pattern`; empty-dict default embedded as
`none`. -/
def get_trajectory_pattern (pattern_name : String) : Option TrajectoryPattern :=
  (SPATIAL_ZONES.trajectory_patterns.find? (fun p => p.1 == pattern_name)).map
    (fun p => p.2)

/-- The apparatus-section lookup inlined in the server operation
(`zone_focus in sections` followed by indexing). -/
def lookup_section (z : String) : Option ZoneSection :=
  (SPATIAL_ZONES.apparatus_sections.find? (fun p => p.1 == z)).map (fun p => p.2)

/-- The ASCII apostrophe the source's f-string error messages wrap keys
in. -/
def quote_char : Char := Char.ofNat 39

/-- A key wrapped in apostrophes, as the source's f-strings render it. -/
def quoted (s : String) : String :=
  String.singleton quote_char ++ s ++ String.singleton quote_char

/-- Result dict of server.py `analyze_spatial_composition`: both reference
tables always present; one focused field per successfully looked-up
argument; one shared `error` key. -/
structure SpatialComposition where
  spatial_zones : SpatialZonesTable
  apparatus_specs : ApparatusSpecs
  focused_zone : Option ZoneSection
  support_details : Option SupportConfiguration
  trajectory_details : Option TrajectoryPattern
  error : Option String
  deriving Repr, DecidableEq

/-- server.py `analyze_spatial_composition`. A Python `Optional[str]`
argument is skipped when falsy (absent or empty); each truthy argument
either sets its focused field on a hit or assigns the shared `error` key on
a miss, in source order zone, support configuration, trajectory. -/
def analyze_spatial_composition
    (zone_focus support_configuration trajectory_type : Option String) :
    SpatialComposition :=
  let r0 : SpatialComposition :=
    { spatial_zones := SPATIAL_ZONES, apparatus_specs := APPARATUS_SPECS,
      focused_zone := none, support_details := none,
      trajectory_details := none, error := none }
  let r1 :=
    match zone_focus with
    | some z =>
      if z == "" then r0
      else
        match lookup_section z with
        | some sec => { r0 with focused_zone := some sec }
        | none => { r0 with error := some ("Zone " ++ quoted z ++ " not found") }
    | none => r0
  let r2 :=
    match support_configuration with
    | some c =>
      if c == "" then r1
      else
        match get_support_config c with
        | some cfg => { r1 with support_details := some cfg }
        | none => { r1 with error := some ("Support config " ++ quoted c ++ " not found") }
    | none => r1
  let r3 :=
    match trajectory_type with
    | some t =>
      if t == "" then r2
      else
        match get_trajectory_pattern t with
        | some traj => { r2 with trajectory_details := some traj }
        | none => { r2 with error := some ("Trajectory " ++ quoted t ++ " not found") }
    | none => r2
  r3

/-- The zone argument is requested (truthy) and matches no section. -/
def zone_lookup_fails : Option String → Bool
  | none => false
  | some z => !(z == "") && (lookup_section z).isNone

/-- The support-configuration argument is requested and matches nothing. -/
def support_lookup_fails : Option String → Bool
  | none => false
  | some c => !(c == "") && (get_support_config c).isNone

/-- The trajectory argument is requested and matches nothing. -/
def trajectory_lookup_fails : Option String → Bool
  | none => false
  | some t => !(t == "") && (get_trajectory_pattern t).isNone

/-- C7 counterexample: with an unknown zone and an unknown support
configuration requested together, the response's single `error` key holds
only the support-configuration message; the zone message, which the same
call reports when the zone is the only failing argument, has been
overwritten rather than reported as its own field-level error. -/
theorem spatial_composition_error_overwritten :
    (analyze_spatial_composition (some "nozone") (some "nocfg") none).error =
        some ("Support config " ++ quoted "nocfg" ++ " not found")
    ∧ (analyze_spatial_composition (some "nozone") none none).error =
        some ("Zone " ++ quoted "nozone" ++ " not found")
    ∧ (analyze_spatial_composition (some "nozone") (some "nocfg") none).error ≠
        some ("Zone " ++ quoted "nozone" ++ " not found") := by
  refine ⟨rfl, rfl, ?_⟩
  decide

/-- C7 amended: every response carries the full reference tables, and each
focused field depends only on its own argument, so one failing argument
never invalidates a sibling's data; but the three lookups share a single
`error` key written in source order, so when several requested keys are
unknown only the message of the last failing lookup (trajectory before
support configuration before zone) survives. -/
theorem spatial_composition_fields
    (zone_focus support_configuration trajectory_type : Option String) :
    ((analyze_spatial_composition zone_focus support_configuration
        trajectory_type).spatial_zones = SPATIAL_ZONES)
    ∧ ((analyze_spatial_composition zone_focus support_configuration
        trajectory_type).apparatus_specs = APPARATUS_SPECS)
    ∧ ((analyze_spatial_composition zone_focus support_configuration
        trajectory_type).focused_zone =
        (analyze_spatial_composition zone_focus none none).focused_zone)
    ∧ ((analyze_spatial_composition zone_focus support_configuration
        trajectory_type).support_details =
        (analyze_spatial_composition none support_configuration
          none).support_details)
    ∧ ((analyze_spatial_composition zone_focus support_configuration
        trajectory_type).trajectory_details =
        (analyze_spatial_composition none none
          trajectory_type).trajectory_details)
    ∧ ((analyze_spatial_composition zone_focus support_configuration
        trajectory_type).error =
        if trajectory_lookup_fails trajectory_type then
          some ("Trajectory " ++ quoted (trajectory_type.getD "") ++ " not found")
        else if support_lookup_fails support_configuration then
          some ("Support config " ++ quoted (support_configuration.getD "") ++ " not found")
        else if zone_lookup_fails zone_focus then
          some ("Zone " ++ quoted (zone_focus.getD "") ++ " not found")
        else none) := by
  rcases zone_focus with _ | z <;>
    rcases support_configuration with _ | c <;>
      rcases trajectory_type with _ | t <;>
        simp only [analyze_spatial_composition, zone_lookup_fails,
          support_lookup_fails, trajectory_lookup_fails, Option.getD_some,
          Option.getD_none] <;>
          repeat' split <;>
            first
              | rfl
              | simp_all [Option.isNone]
              | skip

end PommelHorse
